import Mathlib

/-!
Shallow embedding of the tinywasm parser conversion pass
(src/crates/parser/src/conversion.rs) and of the module-instance layer
(src/crates/tinywasm/src/instance.rs), with theorems checking the
natural-language specification against the code.

Rust `Result` is modelled by `Except` or by `Res` below; a Rust panic
(`unimplemented!`, `expect`) is modelled by the distinguished outcome
`Res.panic`, kept apart from returned errors.
-/

/-- Outcome of a fallible Rust computation that may also panic:
`panic` models a Rust panic (it unwinds, it is not a returned error),
`err` a returned `Err`, `ok` a returned `Ok`. -/
inductive Res (ε α : Type) where
  | panic (msg : String)
  | err (e : ε)
  | ok (a : α)

def Res.bind {ε α β : Type} : Res ε α → (α → Res ε β) → Res ε β
  | .panic m, _ => .panic m
  | .err e, _ => .err e
  | .ok a, f => f a

def Res.map {ε α β : Type} (f : α → β) : Res ε α → Res ε β
  | .panic m => .panic m
  | .err e => .err e
  | .ok a => .ok (f a)

/-- `wasmparser::ValType` (the decoder-side value-type enum). -/
inductive WValType where
  | I32 | I64 | F32 | F64 | V128 | FuncRef | ExternRef
deriving DecidableEq

/-- `tinywasm_types::ValType`. -/
inductive ValType where
  | I32 | I64 | F32 | F64 | V128 | FuncRef | ExternRef
deriving DecidableEq

/-- `wasmparser::BlockType`. The source variant `Type` is spelled `Typ`
(`Type` is reserved in Lean); `FuncType` carries a type index (Wasm 2.0). -/
inductive BlockType where
  | Empty
  | Typ (t : WValType)
  | FuncType (i : Nat)
deriving DecidableEq

/-- `tinywasm_types::BlockArgs`; the source variant `Type` is spelled `Typ`. -/
inductive BlockArgs where
  | Empty
  | Typ (t : ValType)
deriving DecidableEq

/-- `wasmparser::MemArg`. The converter copies only `offset` and `align`;
the `memory` index is dropped. -/
structure WMemArg where
  align : Nat
  offset : Nat
  memory : Nat
deriving DecidableEq

/-- `tinywasm_types::MemArg`. -/
structure MemArg where
  offset : Nat
  align : Nat
deriving DecidableEq

/-- The parser error kinds reached from conversion.rs: `UnsupportedOperator`
and `Other`, plus `DecoderError` modelling a forwarded
`wasmparser::BinaryReaderError` (the `From` conversion behind `?`). -/
inductive ParseError where
  | UnsupportedOperator (desc : String)
  | Other (msg : String)
  | DecoderError (msg : String)
deriving DecidableEq

/-- The decoded `wasmparser::Operator` stream elements, restricted to the
variants conversion.rs names explicitly, plus representatives of the
variants that fall into its catch-all arm (`I32Const`, `V128Const`,
`MemoryCopy`): `wasmparser::Operator` has many more such variants, all
reaching the same arm. `BrTable` carries its fallible case-label reads and
its default depth. -/
inductive Operator where
  | Unreachable | Nop
  | Block (blockty : BlockType)
  | Loop (blockty : BlockType)
  | If (blockty : BlockType)
  | Else | End
  | Br (relative_depth : Nat)
  | BrIf (relative_depth : Nat)
  | BrTable (targets : List (Except String Nat)) (defaultDepth : Nat)
  | Return
  | Call (function_index : Nat)
  | CallIndirect (type_index : Nat) (table_index : Nat)
  | Drop | Select
  | LocalGet (local_index : Nat)
  | LocalSet (local_index : Nat)
  | LocalTee (local_index : Nat)
  | GlobalGet (global_index : Nat)
  | GlobalSet (global_index : Nat)
  | MemorySize | MemoryGrow
  | I32Load (memarg : WMemArg)
  | I64Load (memarg : WMemArg)
  | F32Load (memarg : WMemArg)
  | F64Load (memarg : WMemArg)
  | I32Load8S (memarg : WMemArg)
  | I32Load8U (memarg : WMemArg)
  | I32Load16S (memarg : WMemArg)
  | I32Load16U (memarg : WMemArg)
  | I64Load8S (memarg : WMemArg)
  | I64Load8U (memarg : WMemArg)
  | I64Load16S (memarg : WMemArg)
  | I64Load16U (memarg : WMemArg)
  | I64Load32S (memarg : WMemArg)
  | I64Load32U (memarg : WMemArg)
  | I32Store (memarg : WMemArg)
  | I64Store (memarg : WMemArg)
  | F32Store (memarg : WMemArg)
  | F64Store (memarg : WMemArg)
  | I32Store8 (memarg : WMemArg)
  | I32Store16 (memarg : WMemArg)
  | I64Store8 (memarg : WMemArg)
  | I64Store16 (memarg : WMemArg)
  | I64Store32 (memarg : WMemArg)
  | I32Eqz | I32Eq | I32Ne | I32LtS | I32LtU | I32GtS | I32GtU
  | I32LeS | I32LeU | I32GeS | I32GeU
  | I64Eqz | I64Eq | I64Ne | I64LtS | I64LtU | I64GtS | I64GtU
  | I64LeS | I64LeU | I64GeS | I64GeU
  | F32Eq | F32Ne | F32Lt | F32Gt | F32Le | F32Ge
  | F64Eq | F64Ne | F64Lt | F64Gt | F64Le | F64Ge
  | I32Clz | I32Ctz | I32Popcnt
  | I32Add | I32Sub | I32Mul | I32DivS | I32DivU | I32RemS | I32RemU
  | I32And | I32Or | I32Xor | I32Shl | I32ShrS | I32ShrU | I32Rotl | I32Rotr
  | I64Clz | I64Ctz | I64Popcnt
  | I64Add | I64Sub | I64Mul | I64DivS | I64DivU | I64RemS | I64RemU
  | I64And | I64Or | I64Xor | I64Shl | I64ShrS | I64ShrU | I64Rotl | I64Rotr
  | F32Abs | F32Neg | F32Ceil | F32Floor | F32Trunc | F32Nearest | F32Sqrt
  | F32Add | F32Sub | F32Mul | F32Div | F32Min | F32Max | F32Copysign
  | F64Abs | F64Neg | F64Ceil | F64Floor | F64Trunc | F64Nearest | F64Sqrt
  | F64Add | F64Sub | F64Mul | F64Div | F64Min | F64Max | F64Copysign
  | I32WrapI64
  | I32TruncF32S | I32TruncF32U | I32TruncF64S | I32TruncF64U
  | I64ExtendI32S | I64ExtendI32U
  | I64TruncF32S | I64TruncF32U | I64TruncF64S | I64TruncF64U
  | F32ConvertI32S | F32ConvertI32U | F32ConvertI64S | F32ConvertI64U
  | F32DemoteF64
  | F64ConvertI32S | F64ConvertI32U | F64ConvertI64S | F64ConvertI64U
  | F64PromoteF32
  | I32ReinterpretF32 | I64ReinterpretF64 | F32ReinterpretI32 | F64ReinterpretI64
  | I32Const (value : Int)
  | V128Const (value : Nat)
  | MemoryCopy

/-- `tinywasm_types::Instruction`, as populated by conversion.rs. -/
inductive Instruction where
  | Unreachable | Nop
  | Block (args : BlockArgs)
  | Loop (args : BlockArgs)
  | If (args : BlockArgs)
  | Else | End
  | Br (relative_depth : Nat)
  | BrIf (relative_depth : Nat)
  | BrTable (defaultDepth : Nat)
  | BrLabel (depth : Nat)
  | Return
  | Call (function_index : Nat)
  | CallIndirect (type_index : Nat) (table_index : Nat)
  | Drop | Select
  | LocalGet (local_index : Nat)
  | LocalSet (local_index : Nat)
  | LocalTee (local_index : Nat)
  | GlobalGet (global_index : Nat)
  | GlobalSet (global_index : Nat)
  | MemorySize | MemoryGrow
  | I32Load (memarg : MemArg)
  | I64Load (memarg : MemArg)
  | F32Load (memarg : MemArg)
  | F64Load (memarg : MemArg)
  | I32Load8S (memarg : MemArg)
  | I32Load8U (memarg : MemArg)
  | I32Load16S (memarg : MemArg)
  | I32Load16U (memarg : MemArg)
  | I64Load8S (memarg : MemArg)
  | I64Load8U (memarg : MemArg)
  | I64Load16S (memarg : MemArg)
  | I64Load16U (memarg : MemArg)
  | I64Load32S (memarg : MemArg)
  | I64Load32U (memarg : MemArg)
  | I32Store (memarg : MemArg)
  | I64Store (memarg : MemArg)
  | F32Store (memarg : MemArg)
  | F64Store (memarg : MemArg)
  | I32Store8 (memarg : MemArg)
  | I32Store16 (memarg : MemArg)
  | I64Store8 (memarg : MemArg)
  | I64Store16 (memarg : MemArg)
  | I64Store32 (memarg : MemArg)
  | I32Eqz | I32Eq | I32Ne | I32LtS | I32LtU | I32GtS | I32GtU
  | I32LeS | I32LeU | I32GeS | I32GeU
  | I64Eqz | I64Eq | I64Ne | I64LtS | I64LtU | I64GtS | I64GtU
  | I64LeS | I64LeU | I64GeS | I64GeU
  | F32Eq | F32Ne | F32Lt | F32Gt | F32Le | F32Ge
  | F64Eq | F64Ne | F64Lt | F64Gt | F64Le | F64Ge
  | I32Clz | I32Ctz | I32Popcnt
  | I32Add | I32Sub | I32Mul | I32DivS | I32DivU | I32RemS | I32RemU
  | I32And | I32Or | I32Xor | I32Shl | I32ShrS | I32ShrU | I32Rotl | I32Rotr
  | I64Clz | I64Ctz | I64Popcnt
  | I64Add | I64Sub | I64Mul | I64DivS | I64DivU | I64RemS | I64RemU
  | I64And | I64Or | I64Xor | I64Shl | I64ShrS | I64ShrU | I64Rotl | I64Rotr
  | F32Abs | F32Neg | F32Ceil | F32Floor | F32Trunc | F32Nearest | F32Sqrt
  | F32Add | F32Sub | F32Mul | F32Div | F32Min | F32Max | F32Copysign
  | F64Abs | F64Neg | F64Ceil | F64Floor | F64Trunc | F64Nearest | F64Sqrt
  | F64Add | F64Sub | F64Mul | F64Div | F64Min | F64Max | F64Copysign
  | I32WrapI64
  | I32TruncF32S | I32TruncF32U | I32TruncF64S | I32TruncF64U
  | I64ExtendI32S | I64ExtendI32U
  | I64TruncF32S | I64TruncF32U | I64TruncF64S | I64TruncF64U
  | F32ConvertI32S | F32ConvertI32U | F32ConvertI64S | F32ConvertI64U
  | F32DemoteF64
  | F64ConvertI32S | F64ConvertI32U | F64ConvertI64S | F64ConvertI64U
  | F64PromoteF32
  | I32ReinterpretF32 | I64ReinterpretF64 | F32ReinterpretI32 | F64ReinterpretI64

/-- `convert_valtype` (conversion.rs:87). -/
def convert_valtype : WValType → ValType
  | .I32 => .I32
  | .I64 => .I64
  | .F32 => .F32
  | .F64 => .F64
  | .V128 => .V128
  | .FuncRef => .FuncRef
  | .ExternRef => .ExternRef

/-- `convert_blocktype` (conversion.rs:70). On a `FuncType` blocktype the
source runs `unimplemented!()`, which panics; this is the `panic` outcome. -/
def convert_blocktype : BlockType → Res ParseError BlockArgs
  | .Empty => .ok .Empty
  | .Typ ty => .ok (.Typ (convert_valtype ty))
  | .FuncType _ => .panic "not implemented"

/-- `convert_memarg` (conversion.rs:100). -/
def convert_memarg (memarg : WMemArg) : MemArg :=
  { offset := memarg.offset, align := memarg.align }

/-- The modelled `Debug` rendering of an operator appearing in the
`format!("Unsupported instruction: {:?}", op)` message: the variant name
(argument details of the rendering are not modelled). -/
def opName : Operator → String
  | .I32Const _ => "I32Const"
  | .V128Const _ => "V128Const"
  | .MemoryCopy => "MemoryCopy"
  | _ => "Operator"

/-- `process_operator` (conversion.rs:131): one instruction per supported
operator with immediates copied over; the catch-all arm yields
`UnsupportedOperator`. `BrTable` here keeps only the default depth
(`process_operators` intercepts `BrTable` before this function). -/
def process_operator : Operator → Res ParseError Instruction
  | .Unreachable => .ok .Unreachable
  | .Nop => .ok .Nop
  | .Block blockty => (convert_blocktype blockty).map Instruction.Block
  | .Loop blockty => (convert_blocktype blockty).map Instruction.Loop
  | .If blockty => (convert_blocktype blockty).map Instruction.If
  | .Else => .ok .Else
  | .End => .ok .End
  | .Br relative_depth => .ok (.Br relative_depth)
  | .BrIf relative_depth => .ok (.BrIf relative_depth)
  | .BrTable _ defaultDepth => .ok (.BrTable defaultDepth)
  | .Return => .ok .Return
  | .Call function_index => .ok (.Call function_index)
  | .CallIndirect type_index table_index => .ok (.CallIndirect type_index table_index)
  | .Drop => .ok .Drop
  | .Select => .ok .Select
  | .LocalGet local_index => .ok (.LocalGet local_index)
  | .LocalSet local_index => .ok (.LocalSet local_index)
  | .LocalTee local_index => .ok (.LocalTee local_index)
  | .GlobalGet global_index => .ok (.GlobalGet global_index)
  | .GlobalSet global_index => .ok (.GlobalSet global_index)
  | .MemorySize => .ok .MemorySize
  | .MemoryGrow => .ok .MemoryGrow
  | .I32Load memarg => .ok (.I32Load (convert_memarg memarg))
  | .I64Load memarg => .ok (.I64Load (convert_memarg memarg))
  | .F32Load memarg => .ok (.F32Load (convert_memarg memarg))
  | .F64Load memarg => .ok (.F64Load (convert_memarg memarg))
  | .I32Load8S memarg => .ok (.I32Load8S (convert_memarg memarg))
  | .I32Load8U memarg => .ok (.I32Load8U (convert_memarg memarg))
  | .I32Load16S memarg => .ok (.I32Load16S (convert_memarg memarg))
  | .I32Load16U memarg => .ok (.I32Load16U (convert_memarg memarg))
  | .I64Load8S memarg => .ok (.I64Load8S (convert_memarg memarg))
  | .I64Load8U memarg => .ok (.I64Load8U (convert_memarg memarg))
  | .I64Load16S memarg => .ok (.I64Load16S (convert_memarg memarg))
  | .I64Load16U memarg => .ok (.I64Load16U (convert_memarg memarg))
  | .I64Load32S memarg => .ok (.I64Load32S (convert_memarg memarg))
  | .I64Load32U memarg => .ok (.I64Load32U (convert_memarg memarg))
  | .I32Store memarg => .ok (.I32Store (convert_memarg memarg))
  | .I64Store memarg => .ok (.I64Store (convert_memarg memarg))
  | .F32Store memarg => .ok (.F32Store (convert_memarg memarg))
  | .F64Store memarg => .ok (.F64Store (convert_memarg memarg))
  | .I32Store8 memarg => .ok (.I32Store8 (convert_memarg memarg))
  | .I32Store16 memarg => .ok (.I32Store16 (convert_memarg memarg))
  | .I64Store8 memarg => .ok (.I64Store8 (convert_memarg memarg))
  | .I64Store16 memarg => .ok (.I64Store16 (convert_memarg memarg))
  | .I64Store32 memarg => .ok (.I64Store32 (convert_memarg memarg))
  | .I32Eqz => .ok .I32Eqz
  | .I32Eq => .ok .I32Eq
  | .I32Ne => .ok .I32Ne
  | .I32LtS => .ok .I32LtS
  | .I32LtU => .ok .I32LtU
  | .I32GtS => .ok .I32GtS
  | .I32GtU => .ok .I32GtU
  | .I32LeS => .ok .I32LeS
  | .I32LeU => .ok .I32LeU
  | .I32GeS => .ok .I32GeS
  | .I32GeU => .ok .I32GeU
  | .I64Eqz => .ok .I64Eqz
  | .I64Eq => .ok .I64Eq
  | .I64Ne => .ok .I64Ne
  | .I64LtS => .ok .I64LtS
  | .I64LtU => .ok .I64LtU
  | .I64GtS => .ok .I64GtS
  | .I64GtU => .ok .I64GtU
  | .I64LeS => .ok .I64LeS
  | .I64LeU => .ok .I64LeU
  | .I64GeS => .ok .I64GeS
  | .I64GeU => .ok .I64GeU
  | .F32Eq => .ok .F32Eq
  | .F32Ne => .ok .F32Ne
  | .F32Lt => .ok .F32Lt
  | .F32Gt => .ok .F32Gt
  | .F32Le => .ok .F32Le
  | .F32Ge => .ok .F32Ge
  | .F64Eq => .ok .F64Eq
  | .F64Ne => .ok .F64Ne
  | .F64Lt => .ok .F64Lt
  | .F64Gt => .ok .F64Gt
  | .F64Le => .ok .F64Le
  | .F64Ge => .ok .F64Ge
  | .I32Clz => .ok .I32Clz
  | .I32Ctz => .ok .I32Ctz
  | .I32Popcnt => .ok .I32Popcnt
  | .I32Add => .ok .I32Add
  | .I32Sub => .ok .I32Sub
  | .I32Mul => .ok .I32Mul
  | .I32DivS => .ok .I32DivS
  | .I32DivU => .ok .I32DivU
  | .I32RemS => .ok .I32RemS
  | .I32RemU => .ok .I32RemU
  | .I32And => .ok .I32And
  | .I32Or => .ok .I32Or
  | .I32Xor => .ok .I32Xor
  | .I32Shl => .ok .I32Shl
  | .I32ShrS => .ok .I32ShrS
  | .I32ShrU => .ok .I32ShrU
  | .I32Rotl => .ok .I32Rotl
  | .I32Rotr => .ok .I32Rotr
  | .I64Clz => .ok .I64Clz
  | .I64Ctz => .ok .I64Ctz
  | .I64Popcnt => .ok .I64Popcnt
  | .I64Add => .ok .I64Add
  | .I64Sub => .ok .I64Sub
  | .I64Mul => .ok .I64Mul
  | .I64DivS => .ok .I64DivS
  | .I64DivU => .ok .I64DivU
  | .I64RemS => .ok .I64RemS
  | .I64RemU => .ok .I64RemU
  | .I64And => .ok .I64And
  | .I64Or => .ok .I64Or
  | .I64Xor => .ok .I64Xor
  | .I64Shl => .ok .I64Shl
  | .I64ShrS => .ok .I64ShrS
  | .I64ShrU => .ok .I64ShrU
  | .I64Rotl => .ok .I64Rotl
  | .I64Rotr => .ok .I64Rotr
  | .F32Abs => .ok .F32Abs
  | .F32Neg => .ok .F32Neg
  | .F32Ceil => .ok .F32Ceil
  | .F32Floor => .ok .F32Floor
  | .F32Trunc => .ok .F32Trunc
  | .F32Nearest => .ok .F32Nearest
  | .F32Sqrt => .ok .F32Sqrt
  | .F32Add => .ok .F32Add
  | .F32Sub => .ok .F32Sub
  | .F32Mul => .ok .F32Mul
  | .F32Div => .ok .F32Div
  | .F32Min => .ok .F32Min
  | .F32Max => .ok .F32Max
  | .F32Copysign => .ok .F32Copysign
  | .F64Abs => .ok .F64Abs
  | .F64Neg => .ok .F64Neg
  | .F64Ceil => .ok .F64Ceil
  | .F64Floor => .ok .F64Floor
  | .F64Trunc => .ok .F64Trunc
  | .F64Nearest => .ok .F64Nearest
  | .F64Sqrt => .ok .F64Sqrt
  | .F64Add => .ok .F64Add
  | .F64Sub => .ok .F64Sub
  | .F64Mul => .ok .F64Mul
  | .F64Div => .ok .F64Div
  | .F64Min => .ok .F64Min
  | .F64Max => .ok .F64Max
  | .F64Copysign => .ok .F64Copysign
  | .I32WrapI64 => .ok .I32WrapI64
  | .I32TruncF32S => .ok .I32TruncF32S
  | .I32TruncF32U => .ok .I32TruncF32U
  | .I32TruncF64S => .ok .I32TruncF64S
  | .I32TruncF64U => .ok .I32TruncF64U
  | .I64ExtendI32S => .ok .I64ExtendI32S
  | .I64ExtendI32U => .ok .I64ExtendI32U
  | .I64TruncF32S => .ok .I64TruncF32S
  | .I64TruncF32U => .ok .I64TruncF32U
  | .I64TruncF64S => .ok .I64TruncF64S
  | .I64TruncF64U => .ok .I64TruncF64U
  | .F32ConvertI32S => .ok .F32ConvertI32S
  | .F32ConvertI32U => .ok .F32ConvertI32U
  | .F32ConvertI64S => .ok .F32ConvertI64S
  | .F32ConvertI64U => .ok .F32ConvertI64U
  | .F32DemoteF64 => .ok .F32DemoteF64
  | .F64ConvertI32S => .ok .F64ConvertI32S
  | .F64ConvertI32U => .ok .F64ConvertI32U
  | .F64ConvertI64S => .ok .F64ConvertI64S
  | .F64ConvertI64U => .ok .F64ConvertI64U
  | .F64PromoteF32 => .ok .F64PromoteF32
  | .I32ReinterpretF32 => .ok .I32ReinterpretF32
  | .I64ReinterpretF64 => .ok .I64ReinterpretF64
  | .F32ReinterpretI32 => .ok .F32ReinterpretI32
  | .F64ReinterpretI64 => .ok .F64ReinterpretI64
  | op => .err (.UnsupportedOperator ("Unsupported instruction: " ++ opName op))

/-- The `targets.targets().collect::<Result<Vec<u32>, _>>()` step of the
`BrTable` arm of `process_operators`: first failing label read fails the
collection. -/
def collect_targets : List (Except String Nat) → Except String (List Nat)
  | [] => .ok []
  | .error e :: _ => .error e
  | .ok n :: rest => (collect_targets rest).map (n :: ·)

/-- One iteration of the loop in `process_operators` (conversion.rs:111):
the instructions the iteration appends for one decoded operator. For
`BrTable` this is `BrTable(default)` followed by one `BrLabel` per case
label; every other operator goes through `process_operator`. -/
def process_op_entry (op : Operator) : Res ParseError (List Instruction) :=
  match op with
  | .BrTable targets defaultDepth =>
    match collect_targets targets with
    | .error e => .err (.DecoderError e)
    | .ok labels => .ok (Instruction.BrTable defaultDepth :: labels.map Instruction.BrLabel)
  | op => (process_operator op).map (fun i => [i])

/-- `process_operators` (conversion.rs:107): folds the decoded operator
stream into one flat instruction buffer; any decoder error, unsupported
operator or failing label read fails the whole conversion. -/
def process_operators : List (Except String Operator) → Res ParseError (List Instruction)
  | [] => .ok []
  | .error e :: _ => .err (.DecoderError e)
  | .ok op :: rest =>
    (process_op_entry op).bind fun is =>
      (process_operators rest).map fun rest_is => is ++ rest_is

/-- The decoder-side view of a `wasmparser::FunctionBody` as read by
`convert_module_code`: the run-length local declarations (each read may
fail), the declaration count reported by `LocalsReader::get_count`, and
the operator stream. -/
structure FunctionBody where
  locals : List (Except String (Nat × WValType))
  localsCount : Nat
  ops : List (Except String Operator)

/-- `crate::module::CodeSection`. -/
structure CodeSection where
  locals : List ValType
  body : List Instruction

/-- `convert_module_code` (conversion.rs:27): maps each successfully read
local declaration to a single `ValType` (`filter_map(ok)` then
`map(convert_valtype)` of its type component), errors when the resulting
length differs from the reported declaration count, then converts the
body. -/
def convert_module_code (func : FunctionBody) : Res ParseError CodeSection :=
  let locals := (func.locals.filterMap Except.toOption).map (fun l => convert_valtype l.2)
  if locals.length ≠ func.localsCount then
    .err (.Other "Invalid local index")
  else
    (process_operators func.ops).map (fun body => { locals := locals, body := body })

/-- The locals sequence the specification describes for
`convert_module_code`: the run-length-encoded declarations expanded into
one `ValType` per local slot, a pair `(n, t)` contributing `n` copies of
`t`. Stated from the words of the spec for comparison with the source
definition above. -/
def spec_expanded_locals (decls : List (Nat × WValType)) : List ValType :=
  decls.flatMap (fun l => List.replicate l.1 (convert_valtype l.2))

/-- `tinywasm_types::ExternalKind` as used by the instance layer
(the unsupported `Tag` kind is rejected during conversion and never
reaches a `ModuleInstance`). -/
inductive ExternalKind where
  | Func | Table | Memory | Global
deriving DecidableEq

/-- `tinywasm_types::Export`: an export entry of the decoded module. -/
structure Export where
  index : Nat
  name : String
  kind : ExternalKind
deriving DecidableEq

/-- `tinywasm_types::ExternVal`: a kind-tagged store-global address. -/
inductive ExternVal where
  | Func (addr : Nat)
  | Table (addr : Nat)
  | Mem (addr : Nat)
  | Global (addr : Nat)
deriving DecidableEq

/-- `ExternVal::new(kind, addr)`. -/
def ExternVal.new : ExternalKind → Nat → ExternVal
  | .Func, a => .Func a
  | .Table, a => .Table a
  | .Memory, a => .Mem a
  | .Global, a => .Global a

/-- `tinywasm_types::FuncType`. -/
structure FuncType where
  params : List ValType
  results : List ValType
deriving DecidableEq

/-- `tinywasm_types::Import` (only carried through instantiation here). -/
structure Import where
  module : String
  name : String
deriving DecidableEq

/-- The runtime errors reached from instance.rs: `InvalidStore`, `Other`,
and a trap surfaced from element or data segment application. -/
inductive Trap where
  | TableOutOfBounds
  | MemoryOutOfBounds
deriving DecidableEq

inductive Error where
  | InvalidStore
  | Other (msg : String)
  | Trap (t : Trap)
deriving DecidableEq

/-- `ModuleInstanceInner` (instance.rs:22). The `Arc` wrapper of
`ModuleInstance` only shares the payload, so the two are collapsed. -/
structure ModuleInstance where
  failed_to_instantiate : Bool
  store_id : Nat
  idx : Nat
  types : List FuncType
  func_addrs : List Nat
  table_addrs : List Nat
  mem_addrs : List Nat
  global_addrs : List Nat
  elem_addrs : List Nat
  data_addrs : List Nat
  func_start : Option Nat
  imports : List Import
  exports : List Export

/-- Modelled from the spec: a store-owned function instance
(`FuncInst`, crates/tinywasm/src/store.rs is not under src/); only its
function type is consulted by the instance layer embedded here. -/
structure FuncInst where
  ty : FuncType

/-- Modelled from the spec: the Store (crates/tinywasm/src/store.rs is not
under src/) — its unique id, its function instances, its registered module
instances, and the monotonic module-instance counter backing
`next_module_instance_idx`. -/
structure Store where
  id : Nat
  funcs : List FuncInst
  instances : List ModuleInstance
  nextIdx : Nat

/-- Modelled from the spec: `Store::get_func` is a bounds-checked lookup. -/
def Store.get_func (s : Store) (addr : Nat) : Except Error FuncInst :=
  match s.funcs.get? addr with
  | some f => .ok f
  | none => .error (.Other ("Function not found: " ++ toString addr))

/-- Modelled from the spec: `Store::add_instance` registers the instance
(appends it); its resource-exhaustion failure is not modelled. -/
def Store.add_instance (s : Store) (i : ModuleInstance) : Store :=
  { s with instances := s.instances ++ [i] }

/-- `FuncHandle` as constructed in instance.rs: a store-global address, the
owning instance, an optional name and the function type. -/
structure FuncHandle where
  addr : Nat
  module : ModuleInstance
  name : Option String
  ty : FuncType

/-- The fields of the decoded `Module` that `ModuleInstance::instantiate`
copies into the instance verbatim (the remaining fields are consumed by
the store-side init steps, which are abstracted below). -/
structure ModuleData where
  func_types : List FuncType
  start_func : Option Nat
  imports : List Import
  exports : List Export

/-- The `{funcs, tables, memories, globals}` address accumulator produced
by import linking and extended by the store-side allocation steps. -/
structure Addrs where
  funcs : List Nat
  tables : List Nat
  memories : List Nat
  globals : List Nat

/-- `ModuleInstance::instantiate` (instance.rs:56), from the point where
the store-side steps have produced their results. The store methods
`link`, `init_funcs`, `init_tables`, `init_memories`, `init_globals`,
`init_elements` and `init_datas` live in crates/tinywasm/src/store.rs,
which is not under src/; per the spec (section 4.4) their outcomes — the
accumulated address lists and the optional traps from element and data
segment application — are taken as inputs. Embedded here: index
allocation, assembly of `ModuleInstanceInner` with
`failed_to_instantiate = elem_trapped.is_some() || data_trapped.is_some()`,
registration via `add_instance`, and the trap reporting order. -/
def ModuleInstance.instantiate (store : Store) (data : ModuleData) (addrs : Addrs)
    (global_addrs elem_addrs data_addrs : List Nat)
    (elem_trapped data_trapped : Option Trap) : Store × Except Error ModuleInstance :=
  let idx := store.nextIdx
  let store := { store with nextIdx := idx + 1 }
  let inst : ModuleInstance := {
    failed_to_instantiate := elem_trapped.isSome || data_trapped.isSome
    store_id := store.id
    idx := idx
    types := data.func_types
    func_addrs := addrs.funcs
    table_addrs := addrs.tables
    mem_addrs := addrs.memories
    global_addrs := global_addrs
    elem_addrs := elem_addrs
    data_addrs := data_addrs
    func_start := data.start_func
    imports := data.imports
    exports := data.exports }
  let store := store.add_instance inst
  match elem_trapped with
  | some trap => (store, .error (.Trap trap))
  | none =>
    match data_trapped with
    | some trap => (store, .error (.Trap trap))
    | none => (store, .ok inst)

/-- `ModuleInstance::export` (instance.rs:109), named `exportNamed` here
(`export` is reserved in Lean): find the first export with the given name,
then resolve its index through the address array of its kind; any failure
gives `None`. -/
def ModuleInstance.exportNamed (m : ModuleInstance) (name : String) : Option ExternVal :=
  match m.exports.find? (fun e => e.name == name) with
  | none => none
  | some e =>
    match e.kind with
    | .Func => (m.func_addrs.get? e.index).map ExternVal.Func
    | .Table => (m.table_addrs.get? e.index).map ExternVal.Table
    | .Memory => (m.mem_addrs.get? e.index).map ExternVal.Mem
    | .Global => (m.global_addrs.get? e.index).map ExternVal.Global

/-- The address array of an instance for a given extern kind
(the `*_addrs` table the export resolution goes through). -/
def ModuleInstance.addrsOf (m : ModuleInstance) : ExternalKind → List Nat
  | .Func => m.func_addrs
  | .Table => m.table_addrs
  | .Memory => m.mem_addrs
  | .Global => m.global_addrs

/-- `ModuleInstance::exported_func_by_name` (instance.rs:165). -/
def ModuleInstance.exported_func_by_name (m : ModuleInstance) (store : Store)
    (name : String) : Except Error FuncHandle :=
  if m.store_id ≠ store.id then
    .error .InvalidStore
  else
    match m.exportNamed name with
    | none => .error (.Other ("Export not found: " ++ name))
    | some (.Func func_addr) =>
      match store.get_func func_addr with
      | .error e => .error e
      | .ok func_inst =>
        .ok { addr := func_addr, module := m, name := some name, ty := func_inst.ty }
    | some _ => .error (.Other ("Export is not a function: " ++ name))

/-- `ModuleInstance::start_func` (instance.rs:198): reject on store-id
mismatch; take `func_start` if present, else the `_start` export when it
is a function, else return `none`; then resolve through `func_addrs`
(`expect` on a missing entry is the `panic` outcome) and build the handle
from the store-side function instance. -/
def ModuleInstance.start_func (m : ModuleInstance) (store : Store) :
    Res Error (Option FuncHandle) :=
  if m.store_id ≠ store.id then
    .err .InvalidStore
  else
    let func_index : Option Nat :=
      match m.func_start with
      | some func_index => some func_index
      | none =>
        match m.exportNamed "_start" with
        | some (.Func func_addr) => some func_addr
        | _ => none
    match func_index with
    | none => .ok none
    | some func_index =>
      match m.func_addrs.get? func_index with
      | none => .panic "No func addr for start func, this is a bug"
      | some func_addr =>
        match store.get_func func_addr with
        | .error e => .err e
        | .ok func_inst =>
          .ok (some { module := m, addr := func_addr, ty := func_inst.ty, name := none })

/-- The operators the conversion supports: everything conversion.rs names
explicitly, except that a `FuncType`-style blocktype is not supported. -/
def is_supported : Operator → Bool
  | .I32Const _ => false
  | .V128Const _ => false
  | .MemoryCopy => false
  | .Block blockty | .Loop blockty | .If blockty =>
    match blockty with
    | .FuncType _ => false
    | _ => true
  | _ => true

/-- The operators reaching the catch-all arm of `process_operator`. -/
def is_unsupported : Operator → Bool
  | .I32Const _ => true
  | .V128Const _ => true
  | .MemoryCopy => true
  | _ => false

def encode_wvaltype : WValType → Nat
  | .I32 => 0 | .I64 => 1 | .F32 => 2 | .F64 => 3
  | .V128 => 4 | .FuncRef => 5 | .ExternRef => 6

def encode_valtype : ValType → Nat
  | .I32 => 0 | .I64 => 1 | .F32 => 2 | .F64 => 3
  | .V128 => 4 | .FuncRef => 5 | .ExternRef => 6

def blocktype_imms : BlockType → List Nat
  | .Empty => [0]
  | .Typ t => [1, encode_wvaltype t]
  | .FuncType i => [2, i]

def blockargs_imms : BlockArgs → List Nat
  | .Empty => [0]
  | .Typ t => [1, encode_valtype t]

/-- The immediates an operator carries, restricted to those the emitted
instruction also carries (for `BrTable`, the emitted `Instruction::BrTable`
stores only the default depth), flattened to numbers: depths and indices
verbatim, a memarg as `[offset, align]`, a blocktype tagged by shape. -/
def op_imms : Operator → List Nat
  | .Block blockty | .Loop blockty | .If blockty => blocktype_imms blockty
  | .Br n | .BrIf n => [n]
  | .BrTable _ d => [d]
  | .Call n => [n]
  | .CallIndirect ty tbl => [ty, tbl]
  | .LocalGet n | .LocalSet n | .LocalTee n | .GlobalGet n | .GlobalSet n => [n]
  | .I32Load m | .I64Load m | .F32Load m | .F64Load m
  | .I32Load8S m | .I32Load8U m | .I32Load16S m | .I32Load16U m
  | .I64Load8S m | .I64Load8U m | .I64Load16S m | .I64Load16U m
  | .I64Load32S m | .I64Load32U m
  | .I32Store m | .I64Store m | .F32Store m | .F64Store m
  | .I32Store8 m | .I32Store16 m
  | .I64Store8 m | .I64Store16 m | .I64Store32 m => [m.offset, m.align]
  | _ => []

/-- The immediates an instruction carries, flattened the same way. -/
def instr_imms : Instruction → List Nat
  | .Block args | .Loop args | .If args => blockargs_imms args
  | .Br n | .BrIf n => [n]
  | .BrTable d => [d]
  | .BrLabel d => [d]
  | .Call n => [n]
  | .CallIndirect ty tbl => [ty, tbl]
  | .LocalGet n | .LocalSet n | .LocalTee n | .GlobalGet n | .GlobalSet n => [n]
  | .I32Load m | .I64Load m | .F32Load m | .F64Load m
  | .I32Load8S m | .I32Load8U m | .I32Load16S m | .I32Load16U m
  | .I64Load8S m | .I64Load8U m | .I64Load16S m | .I64Load16U m
  | .I64Load32S m | .I64Load32U m
  | .I32Store m | .I64Store m | .F32Store m | .F64Store m
  | .I32Store8 m | .I32Store16 m
  | .I64Store8 m | .I64Store16 m | .I64Store32 m => [m.offset, m.align]
  | _ => []

theorem process_operators_append (xs ys : List (Except String Operator)) :
    process_operators (xs ++ ys) =
      (process_operators xs).bind fun a =>
        (process_operators ys).map fun b => a ++ b := by
  induction xs with
  | nil =>
    cases h : process_operators ys <;>
      simp [process_operators, Res.bind, Res.map, h]
  | cons x rest ih =>
    cases x with
    | error e => simp [process_operators, Res.bind]
    | ok op =>
      simp only [List.cons_append, process_operators, ih]
      cases he : process_op_entry op <;>
        cases h1 : process_operators rest <;>
          cases h2 : process_operators ys <;>
            simp [ih, he, h1, h2, Res.bind, Res.map, List.append_assoc]

/-- C1 (code-bug evidence): `convert_module_code` does NOT expand the
run-length-encoded local declarations. For a function body declaring one
group `(2, i32)` — two i32 local slots — with `get_count` reporting the
one declaration group, the code accepts the body and produces the locals
sequence `[i32]` of length one, whereas the specified expansion
(`spec_expanded_locals`) of the same declarations is `[i32, i32]`. -/
theorem convert_module_code_does_not_expand_locals :
    convert_module_code
        { locals := [.ok (2, WValType.I32)], localsCount := 1,
          ops := [.ok Operator.End] }
      = .ok { locals := [ValType.I32], body := [Instruction.End] } ∧
    spec_expanded_locals [(2, WValType.I32)] = [ValType.I32, ValType.I32] :=
  ⟨rfl, rfl⟩

/-- C3: a `BrTable` operator whose case labels all read successfully
contributes exactly the contiguous run
`BrTable(default) :: BrLabel(l1) :: … :: BrLabel(lN)` at its position in
the output buffer; a failing case-label read fails the whole conversion;
and concretely `br_table [1,2,0] (default=3)` yields
`[BrTable 3, BrLabel 1, BrLabel 2, BrLabel 0]`. -/
theorem br_table_expansion (pre post : List (Except String Operator))
    (targets : List (Except String Nat)) (d : Nat) :
    (∀ a labels b, process_operators pre = .ok a →
      collect_targets targets = .ok labels →
      process_operators post = .ok b →
      process_operators (pre ++ .ok (.BrTable targets d) :: post) =
        .ok (a ++ (Instruction.BrTable d :: labels.map Instruction.BrLabel) ++ b)) ∧
    (∀ a e, process_operators pre = .ok a →
      collect_targets targets = .error e →
      process_operators (pre ++ .ok (.BrTable targets d) :: post) =
        .err (.DecoderError e)) ∧
    process_operators [.ok (.BrTable [.ok 1, .ok 2, .ok 0] 3)] =
      .ok [.BrTable 3, .BrLabel 1, .BrLabel 2, .BrLabel 0] := by
  refine ⟨?_, ?_, rfl⟩
  · intro a labels b hpre ht hpost
    rw [process_operators_append, hpre]
    simp only [process_operators, process_op_entry, ht, hpost, Res.bind, Res.map,
      List.append_assoc]
  · intro a e hpre ht
    rw [process_operators_append, hpre]
    simp only [process_operators, process_op_entry, ht, Res.bind, Res.map]

theorem br_table_expansion_witness :
    process_operators
        ([] ++ .ok (.BrTable [.ok 1, .ok 2, .ok 0] 3) :: []) =
      .ok ([] ++ (Instruction.BrTable 3 ::
        [1, 2, 0].map Instruction.BrLabel) ++ []) :=
  (br_table_expansion [] [] [.ok 1, .ok 2, .ok 0] 3).1 [] [1, 2, 0] [] rfl rfl rfl

/-- C5 counterexample: on a `FuncType`-style blocktype (a Wasm 2.0
multi-value block) the conversion does not return an unsupported error:
`convert_blocktype` runs `unimplemented!()`, i.e. it panics. -/
theorem blocktype_functype_counterexample :
    process_operator (.Block (.FuncType 0)) = .panic "not implemented" ∧
    ¬ ∃ desc, process_operator (.Block (.FuncType 0)) =
      .err (.UnsupportedOperator desc) :=
  ⟨rfl, fun ⟨_, hd⟩ => Res.noConfusion hd⟩

/-- C5 (amended): for every operator carrying a `FuncType`-style blocktype,
conversion panics via `unimplemented!()` (it neither succeeds nor returns
an error), and the panic propagates out of `process_operators`. -/
theorem blocktype_functype_panics (i : Nat)
    (rest : List (Except String Operator)) :
    convert_blocktype (.FuncType i) = .panic "not implemented" ∧
    process_operator (.Block (.FuncType i)) = .panic "not implemented" ∧
    process_operator (.Loop (.FuncType i)) = .panic "not implemented" ∧
    process_operator (.If (.FuncType i)) = .panic "not implemented" ∧
    process_operators (.ok (.Block (.FuncType i)) :: rest) =
      .panic "not implemented" :=
  ⟨rfl, rfl, rfl, rfl, rfl⟩

/-- C7: an operator stream reaching an operator outside the supported set
fails with `UnsupportedOperator` whose description names the operator
(the catch-all arm's `format!("Unsupported instruction: {:?}", op)`);
the whole conversion is an error, so no partial buffer is returned. -/
theorem process_op_entry_unsupported (u : Operator)
    (hu : is_unsupported u = true) :
    process_op_entry u =
      .err (.UnsupportedOperator ("Unsupported instruction: " ++ opName u)) := by
  cases u <;> first | rfl | exact Bool.noConfusion hu

theorem unsupported_operator_fails (pre post : List (Except String Operator))
    (u : Operator) (a : List Instruction)
    (hu : is_unsupported u = true) (hpre : process_operators pre = .ok a) :
    process_operators (pre ++ .ok u :: post) =
      .err (.UnsupportedOperator ("Unsupported instruction: " ++ opName u)) := by
  rw [process_operators_append, hpre]
  simp only [process_operators, process_op_entry_unsupported u hu, Res.bind, Res.map]

theorem unsupported_operator_fails_witness :
    process_operators ([.ok .Nop] ++ .ok (.V128Const 0) :: []) =
      .err (.UnsupportedOperator
        ("Unsupported instruction: " ++ opName (.V128Const 0))) :=
  unsupported_operator_fails [.ok .Nop] [] (.V128Const 0) [.Nop] rfl rfl

/-- C9: every supported operator (catch-all representatives and `FuncType`
blocktypes excluded) is converted to `ok` of one instruction whose
immediates — depths, function/type/table/local/global indices, memarg
offset and align, blocktype — equal the immediates of the input operator,
as extracted by `instr_imms` and `op_imms`. -/
theorem process_operator_preserves_immediates (op : Operator)
    (h : is_supported op = true) :
    ∃ i, process_operator op = .ok i ∧ instr_imms i = op_imms op := by
  cases op <;> first
    | exact ⟨_, rfl, rfl⟩
    | exact Bool.noConfusion h
    | (rename_i bt; cases bt <;> first
        | exact ⟨_, rfl, rfl⟩
        | exact Bool.noConfusion h
        | (rename_i t; cases t <;> exact ⟨_, rfl, rfl⟩))

theorem process_operator_preserves_immediates_witness :
    ∃ i, process_operator .Nop = .ok i ∧ instr_imms i = op_imms .Nop :=
  process_operator_preserves_immediates .Nop rfl

/-- C2: whenever element or data segment application trapped, the
assembled instance — with `failed_to_instantiate = true` — is registered
in the store (it appears in the returned store), and the call returns the
element trap when one is set, else the data trap. -/
theorem instantiate_registers_then_traps (store : Store) (data : ModuleData)
    (addrs : Addrs) (g e d : List Nat) (et dt : Option Trap)
    (h : et.isSome ∨ dt.isSome) :
    ((ModuleInstance.instantiate store data addrs g e d et dt).1.instances =
      store.instances ++
        [{ failed_to_instantiate := true, store_id := store.id,
           idx := store.nextIdx, types := data.func_types,
           func_addrs := addrs.funcs, table_addrs := addrs.tables,
           mem_addrs := addrs.memories, global_addrs := g, elem_addrs := e,
           data_addrs := d, func_start := data.start_func,
           imports := data.imports, exports := data.exports }]) ∧
    (∀ t, et = some t →
      (ModuleInstance.instantiate store data addrs g e d et dt).2 =
        .error (.Trap t)) ∧
    (et = none → ∀ t, dt = some t →
      (ModuleInstance.instantiate store data addrs g e d et dt).2 =
        .error (.Trap t)) := by
  cases et <;> cases dt <;>
    simp_all [ModuleInstance.instantiate, Store.add_instance]

theorem instantiate_registers_then_traps_witness :
    (ModuleInstance.instantiate ⟨0, [], [], 0⟩ ⟨[], none, [], []⟩
        ⟨[], [], [], []⟩ [] [] [] (some .TableOutOfBounds) none).2 =
      .error (.Trap .TableOutOfBounds) :=
  (instantiate_registers_then_traps ⟨0, [], [], 0⟩ ⟨[], none, [], []⟩
    ⟨[], [], [], []⟩ [] [] [] (some .TableOutOfBounds) none
    (Or.inl rfl)).2.1 .TableOutOfBounds rfl

/-- A store with two trivial `()->()` functions, backing the `_start`
fallback scenario below. -/
def start_fallback_store : Store :=
  { id := 0
    funcs := [{ ty := { params := [], results := [] } },
              { ty := { params := [], results := [] } }]
    instances := []
    nextIdx := 1 }

/-- An instance whose `func_addrs` is not the identity (`[1, 0]`), with no
declared start function and an export named `_start` of function kind at
module-local index 0. -/
def start_fallback_inst : ModuleInstance :=
  { failed_to_instantiate := false, store_id := 0, idx := 0
    types := [{ params := [], results := [] }, { params := [], results := [] }]
    func_addrs := [1, 0], table_addrs := [], mem_addrs := [], global_addrs := []
    elem_addrs := [], data_addrs := [], func_start := none, imports := []
    exports := [{ index := 0, name := "_start", kind := .Func }] }

/-- C4 (code-bug evidence): the `_start` fallback double-resolves. The
export lookup already returns the store-global address (`1 =
func_addrs[0]`), but `start_func` then indexes `func_addrs` with that
address again and hands out a handle whose `addr` is `func_addrs[1] = 0`,
not the store-global address `1` of the exported function. -/
theorem start_func_double_resolves :
    start_fallback_inst.exportNamed "_start" = some (.Func 1) ∧
    start_fallback_inst.start_func start_fallback_store =
      .ok (some { addr := 0, module := start_fallback_inst,
                  name := none, ty := { params := [], results := [] } }) :=
  ⟨rfl, rfl⟩

/-- C6: for an export record `E` that is what the name scan finds, and
whose index is in bounds of the address array of its kind, `export`
returns an `ExternVal` of kind `E.kind` carrying the store-global address
`addrsOf(E.kind)[E.index]`. -/
theorem export_resolves_through_addrs (m : ModuleInstance) (E : Export) (a : Nat)
    (hfind : m.exports.find? (fun e => e.name == E.name) = some E)
    (haddr : (m.addrsOf E.kind).get? E.index = some a) :
    m.exportNamed E.name = some (ExternVal.new E.kind a) := by
  unfold ModuleInstance.exportNamed
  rw [hfind]
  obtain ⟨idx, nm, kind⟩ := E
  cases kind <;> simp_all [ModuleInstance.addrsOf, ExternVal.new]

theorem export_resolves_through_addrs_witness :
    ModuleInstance.exportNamed
      { failed_to_instantiate := false, store_id := 0, idx := 0, types := []
        func_addrs := [7], table_addrs := [], mem_addrs := [], global_addrs := []
        elem_addrs := [], data_addrs := [], func_start := none, imports := []
        exports := [{ index := 0, name := "f", kind := .Func }] } "f" =
      some (ExternVal.new .Func 7) :=
  export_resolves_through_addrs _ { index := 0, name := "f", kind := .Func } 7
    rfl rfl

/-- C8: `exported_func_by_name` returns `InvalidStore` on any store-id
mismatch, for any name; on a matching store it returns an error when the
export is absent and when the export is not of function kind. -/
theorem exported_func_by_name_rejects (m : ModuleInstance) (store : Store)
    (name : String) :
    (m.store_id ≠ store.id →
      m.exported_func_by_name store name = .error .InvalidStore) ∧
    (m.store_id = store.id → m.exportNamed name = none →
      m.exported_func_by_name store name =
        .error (.Other ("Export not found: " ++ name))) ∧
    (m.store_id = store.id → ∀ v, m.exportNamed name = some v →
      (∀ a, v ≠ .Func a) →
      m.exported_func_by_name store name =
        .error (.Other ("Export is not a function: " ++ name))) := by
  refine ⟨?_, ?_, ?_⟩
  · intro hne
    unfold ModuleInstance.exported_func_by_name
    rw [if_pos hne]
  · intro heq hnone
    unfold ModuleInstance.exported_func_by_name
    rw [if_neg (fun hn => hn heq), hnone]
  · intro heq v hv hnf
    unfold ModuleInstance.exported_func_by_name
    rw [if_neg (fun hn => hn heq), hv]
    cases v with
    | Func a => exact absurd rfl (hnf a)
    | Table a => rfl
    | Mem a => rfl
    | Global a => rfl

theorem exported_func_by_name_rejects_witness :
    ModuleInstance.exported_func_by_name
      { failed_to_instantiate := false, store_id := 0, idx := 0, types := []
        func_addrs := [], table_addrs := [], mem_addrs := [], global_addrs := []
        elem_addrs := [], data_addrs := [], func_start := none, imports := []
        exports := [] } ⟨1, [], [], 0⟩ "f" = .error .InvalidStore :=
  (exported_func_by_name_rejects _ ⟨1, [], [], 0⟩ "f").1 (by decide)

/-- C10: `export` is total: it returns `none` when no export carries the
name and when the found export's index is out of bounds of the address
array of its kind, and whenever it returns `some v`, `v` is the resolved
kind-tagged address of the found export. -/
theorem export_total_and_safe (m : ModuleInstance) (name : String) :
    ((∀ e ∈ m.exports, e.name ≠ name) → m.exportNamed name = none) ∧
    (∀ E, m.exports.find? (fun e => e.name == name) = some E →
      (m.addrsOf E.kind).get? E.index = none → m.exportNamed name = none) ∧
    (∀ v, m.exportNamed name = some v →
      ∃ E a, m.exports.find? (fun e => e.name == name) = some E ∧
        (m.addrsOf E.kind).get? E.index = some a ∧
        v = ExternVal.new E.kind a) := by
  refine ⟨?_, ?_, ?_⟩
  · intro hall
    have hnone : m.exports.find? (fun e => e.name == name) = none :=
      List.find?_eq_none.mpr (fun e he => by simpa using hall e he)
    unfold ModuleInstance.exportNamed
    rw [hnone]
  · intro E hE hoob
    unfold ModuleInstance.exportNamed
    rw [hE]
    obtain ⟨idx, nm, kind⟩ := E
    cases kind <;> simp_all [ModuleInstance.addrsOf]
  · intro v hv
    unfold ModuleInstance.exportNamed at hv
    cases hf : m.exports.find? (fun e => e.name == name) with
    | none => rw [hf] at hv; exact absurd hv (by simp)
    | some E =>
      rw [hf] at hv
      obtain ⟨idx, nm, kind⟩ := E
      cases kind <;>
        simp only [Option.map_eq_some'] at hv <;>
          obtain ⟨a, ha, hva⟩ := hv <;>
            exact ⟨⟨idx, nm, _⟩, a, rfl,
              by simpa [ModuleInstance.addrsOf] using ha,
              by simp [ExternVal.new, hva.symm]⟩

theorem export_total_and_safe_witness :
    ModuleInstance.exportNamed
      { failed_to_instantiate := false, store_id := 0, idx := 0, types := []
        func_addrs := [], table_addrs := [], mem_addrs := [], global_addrs := []
        elem_addrs := [], data_addrs := [], func_start := none, imports := []
        exports := [] } "f" = none :=
  (export_total_and_safe _ "f").1 (by simp)
